import Mathlib

set_option maxRecDepth 8000

/-!
Shallow embedding of the free-stock-images server (src/src/server.py).

The registry, the API client (`make_api_request`), the result formatter
(`format_api_results`), the search operation (`search_stock_images`), the two
diagnostic operations and the dispatcher (`handle_call_tool`) are translated
from the Python source.  External effects are made explicit:
the process environment is a function `String → Option String` and the HTTP
layer is an oracle `HttpRequest → Option Json` (`none` models a transport
failure, a non-2xx status or an unparsable body — all collapsed to `None` by
the Python code).  Every operation additionally returns the list of HTTP
requests it issued, so that "no network call" claims are statable.
Uncaught Python exceptions are modelled by `Option`/error results.
-/

/-- Parsed JSON payloads as the Python code sees them (`response.json()`). -/
inductive Json where
  | null : Json
  | bool : Bool → Json
  | num : Int → Json
  | str : String → Json
  | arr : List Json → Json
  | obj : List (String × Json) → Json

mutual
/-- Rendering of a Python value by `repr`, as used by `str()` on non-strings
inside f-strings.  Escaping of quotes inside strings is not modelled (no claim
depends on it). -/
def Json.pyRepr : Json → String
  | .null => "None"
  | .bool true => "True"
  | .bool false => "False"
  | .num n => toString n
  | .str s => "\x27" ++ s ++ "\x27"
  | .arr l => "[" ++ String.intercalate ", " (Json.pyReprList l) ++ "]"
  | .obj l => "\x7b" ++ String.intercalate ", " (Json.pyReprFields l) ++ "\x7d"

def Json.pyReprList : List Json → List String
  | [] => []
  | j :: rest => Json.pyRepr j :: Json.pyReprList rest

def Json.pyReprFields : List (String × Json) → List String
  | [] => []
  | (k, v) :: rest => ("\x27" ++ k ++ "\x27: " ++ Json.pyRepr v) :: Json.pyReprFields rest
end

/-- Python `str()` of a value, as used when a value is interpolated into an
f-string. -/
def Json.pyStr : Json → String
  | .str s => s
  | j => Json.pyRepr j

/-- Python truthiness of a value (`if api_data:`). -/
def Json.truthy : Json → Bool
  | .null => false
  | .bool b => b
  | .num n => n != 0
  | .str s => s != ""
  | .arr l => !l.isEmpty
  | .obj l => !l.isEmpty

/-- Truthiness of an `Optional[Dict]` value (`None` is falsy). -/
def optJsonTruthy : Option Json → Bool
  | none => false
  | some j => j.truthy

/-- Truthiness of an `Optional[str]` value (`None` and `""` are falsy). -/
def strOptTruthy : Option String → Bool
  | none => false
  | some s => s != ""

/-- Exceptions that can escape a field extraction.  `keyError` is raised by
`d[k]` on a dict without key `k` and is caught by `format_api_results`;
`fatal` stands for `TypeError`/`AttributeError` raised by subscripting or
calling `.get` on a non-dict, which the Python code does not catch. -/
inductive PyErr where
  | keyError : String → PyErr
  | fatal : PyErr
deriving DecidableEq

/-- First-match lookup in a field list (Python dict access; keys of a
constructed dict are unique, so first match is the dict lookup). -/
def lookupField : List (String × Json) → String → Option Json
  | [], _ => none
  | (k, v) :: rest, key => if k == key then some v else lookupField rest key

/-- Python `d.get(key, dflt)`: `AttributeError` (fatal) on a non-dict. -/
def Json.dictGetD (j : Json) (key : String) (dflt : Json) : Except PyErr Json :=
  match j with
  | .obj fields => .ok ((lookupField fields key).getD dflt)
  | _ => .error .fatal

/-- Python `d[key]`: `KeyError` on a missing key, `TypeError` (fatal) when the
value is not a dict. -/
def Json.dictGet (j : Json) (key : String) : Except PyErr Json :=
  match j with
  | .obj fields =>
    match lookupField fields key with
    | some v => .ok v
    | none => .error (.keyError key)
  | _ => .error .fatal

/-- Python `d[k1][k2]`. -/
def getKey2 (j : Json) (k1 k2 : String) : Except PyErr Json := do
  let a ← j.dictGet k1
  a.dictGet k2

/-- Python iteration over a sliced value: a list yields its items, a string
yields its one-character substrings, anything else raises `TypeError` when
sliced (fatal). -/
def Json.asList (j : Json) : Except PyErr (List Json) :=
  match j with
  | .arr l => .ok l
  | .str s => .ok (s.data.map (fun c => Json.str (String.singleton c)))
  | _ => .error .fatal

/-- The formatter body runs in this monad: it appends text to the accumulated
`result_text` (the state) and may stop with a `PyErr`.  On an error the text
accumulated so far is preserved, exactly as with a Python local that the
`except` clause then extends. -/
abbrev M := ExceptT PyErr (StateM String)

def liftEx {α : Type} (e : Except PyErr α) : M α := ExceptT.mk (pure e)

def emit (s : String) : M Unit := ExceptT.lift (modify (fun t => t ++ s))

/-- One registry entry (the per-source dict in `STOCK_IMAGE_SOURCES`).
`requires_api_key` is kept as the string `"true"`/`"false"`, as in the
source; `api_key_env` is `none` where the Python dict has no such key. -/
structure Source where
  name : String
  base_url : String
  api_url : Option String
  description : String
  requires_api_key : String
  api_key_env : Option String
deriving DecidableEq

def unsplashSource : Source :=
  ⟨"Unsplash", "https://unsplash.com/s/photos/",
   some "https://api.unsplash.com/search/photos",
   "Beautiful free photos & images", "true", some "UNSPLASH_ACCESS_KEY"⟩

def pexelsSource : Source :=
  ⟨"Pexels", "https://www.pexels.com/search/",
   some "https://api.pexels.com/v1/search",
   "Free stock photos & royalty free images", "true", some "PEXELS_API_KEY"⟩

def pixabaySource : Source :=
  ⟨"Pixabay", "https://pixabay.com/images/search/",
   some "https://pixabay.com/api/",
   "Stunning royalty-free images & royalty-free stock", "true", some "PIXABAY_API_KEY"⟩

def freepikSource : Source :=
  ⟨"Freepik", "https://www.freepik.com/search?format=search&query=", none,
   "Free vectors, stock photos, PSD and icons", "false", none⟩

def burstSource : Source :=
  ⟨"Burst by Shopify", "https://burst.shopify.com/photos/search?q=", none,
   "Free stock photos for commercial use", "false", none⟩

def stockvaultSource : Source :=
  ⟨"StockVault", "https://www.stockvault.net/search/?q=", none,
   "Free graphics and photos", "false", none⟩

/-- The registry, in declaration order (Python dicts preserve insertion
order). -/
def STOCK_IMAGE_SOURCES : List (String × Source) :=
  [("unsplash", unsplashSource), ("pexels", pexelsSource), ("pixabay", pixabaySource),
   ("freepik", freepikSource), ("burst", burstSource), ("stockvault", stockvaultSource)]

def lookupPairs : List (String × Source) → String → Option Source
  | [], _ => none
  | (k, v) :: rest, sid => if k == sid then some v else lookupPairs rest sid

/-- `STOCK_IMAGE_SOURCES.get(source_id)`. -/
def lookupSource (sid : String) : Option Source := lookupPairs STOCK_IMAGE_SOURCES sid

/-- UTF-8 encoding of one unicode scalar value (Python `str.encode()`). -/
def utf8Bytes (c : Char) : List Nat :=
  let n := c.toNat
  if n < 128 then [n]
  else if n < 2048 then [192 + n / 64, 128 + n % 64]
  else if n < 65536 then [224 + n / 4096, 128 + (n / 64) % 64, 128 + n % 64]
  else [240 + n / 262144, 128 + (n / 4096) % 64, 128 + (n / 64) % 64, 128 + n % 64]

def strBytes (s : String) : List Nat := s.data.flatMap utf8Bytes

/-- Bytes `urllib.parse.quote` leaves unescaped with the default
`safe = \x27/\x27`: ASCII letters, digits, and `_ . - ~ /`. -/
def isSafeByte (b : Nat) : Bool :=
  (65 ≤ b && b ≤ 90) || (97 ≤ b && b ≤ 122) || (48 ≤ b && b ≤ 57) ||
  b == 95 || b == 46 || b == 45 || b == 126 || b == 47

def hexDigit : Nat → Char
  | 0 => '0'
  | 1 => '1'
  | 2 => '2'
  | 3 => '3'
  | 4 => '4'
  | 5 => '5'
  | 6 => '6'
  | 7 => '7'
  | 8 => '8'
  | 9 => '9'
  | 10 => 'A'
  | 11 => 'B'
  | 12 => 'C'
  | 13 => 'D'
  | 14 => 'E'
  | _ => 'F'

def quoteByte (b : Nat) : List Char :=
  if isSafeByte b then [Char.ofNat b] else ['%', hexDigit (b / 16), hexDigit (b % 16)]

/-- `urllib.parse.quote(s)` with the default safe set. -/
def pyQuote (s : String) : String := ⟨(strBytes s).flatMap quoteByte⟩

/-- One HTTP GET as issued by `requests.get(api_url, headers=..., params=...)`.
Integer parameter values are carried as their decimal rendering. -/
structure HttpRequest where
  url : String
  headers : List (String × String)
  params : List (String × String)
deriving DecidableEq

/-- The request-building and issuing part of `make_api_request` (the body of
its `try` block up to `response.json()`).  Returns the parsed payload (or
`none` on any transport/parse failure) together with the single request
issued. -/
def issueRequest (http : HttpRequest → Option Json) (source_id api_url query : String)
    (limit : Int) (api_key : Option String) : Option Json × List HttpRequest :=
  let headers := [("User-Agent", "free-stock-images-mcp/0.1.0")]
  let params := [("q", query), ("per_page", toString (min limit 20))]
  let hp :=
    if source_id == "unsplash" && strOptTruthy api_key then
      (headers ++ [("Authorization", "Client-ID " ++ api_key.getD "")],
       [("query", query), ("per_page", toString (min limit 30))])
    else if source_id == "pexels" && strOptTruthy api_key then
      (headers ++ [("Authorization", api_key.getD "")],
       [("query", query), ("per_page", toString (min limit 80))])
    else if source_id == "pixabay" && strOptTruthy api_key then
      (headers, [("key", api_key.getD ""), ("q", query), ("per_page", toString (min limit 200))])
    else (headers, params)
  let req : HttpRequest := ⟨api_url, hp.1, hp.2⟩
  (http req, [req])

/-- `make_api_request(source_id, query, limit)`.  The environment and the HTTP
oracle are explicit; the second component lists the requests issued (empty
exactly when the function returns before touching the network). -/
def make_api_request (env : String → Option String) (http : HttpRequest → Option Json)
    (source_id query : String) (limit : Int) : Option Json × List HttpRequest :=
  match lookupSource source_id with
  | none => (none, [])
  | some source =>
    match source.api_url with
    | none => (none, [])
    | some api_url =>
      if api_url == "" then (none, [])
      else if source.requires_api_key == "true" then
        match source.api_key_env with
        | none => (none, [])
        | some envName =>
          if envName == "" then (none, [])
          else
            match env envName with
            | none => (none, [])
            | some api_key =>
              if api_key == "" then (none, [])
              else issueRequest http source_id api_url query limit (some api_key)
      else issueRequest http source_id api_url query limit none

/-- One Unsplash item (`for i, img in enumerate(results[:5], 1)` loop body). -/
def unsplashItem (i : Nat) (img : Json) : M Unit := do
  let desc ← liftEx (img.dictGetD "description" (Json.str "Untitled"))
  emit (toString i ++ ". " ++ desc.pyStr ++ "\n")
  let regular ← liftEx (getKey2 img "urls" "regular")
  emit ("- URL: " ++ regular.pyStr ++ "\n")
  let download ← liftEx (getKey2 img "links" "download")
  emit ("- Download: " ++ download.pyStr ++ "\n")
  let uname ← liftEx (getKey2 img "user" "name")
  emit ("- Author: " ++ uname.pyStr ++ "\n")
  let w ← liftEx (img.dictGet "width")
  let h ← liftEx (img.dictGet "height")
  emit ("- Dimensions: " ++ w.pyStr ++ "x" ++ h.pyStr ++ "\n\n")

def unsplashItems : List (Nat × Json) → M Unit
  | [] => pure ()
  | (i, img) :: rest => do
    unsplashItem i img
    unsplashItems rest

def unsplashBody (api_data : Json) : M Unit := do
  let resultsJ ← liftEx (api_data.dictGetD "results" (Json.arr []))
  let results ← liftEx resultsJ.asList
  unsplashItems ((results.take 5).enumFrom 1)

/-- One Pexels item. -/
def pexelsItem (i : Nat) (img : Json) : M Unit := do
  let pid ← liftEx (img.dictGet "id")
  emit (toString i ++ ". Photo #" ++ pid.pyStr ++ "\n")
  let large ← liftEx (getKey2 img "src" "large")
  emit ("- URL: " ++ large.pyStr ++ "\n")
  let medium ← liftEx (getKey2 img "src" "medium")
  emit ("- Medium: " ++ medium.pyStr ++ "\n")
  let photographer ← liftEx (img.dictGet "photographer")
  emit ("- Photographer: " ++ photographer.pyStr ++ "\n")
  let w ← liftEx (img.dictGet "width")
  let h ← liftEx (img.dictGet "height")
  emit ("- Dimensions: " ++ w.pyStr ++ "x" ++ h.pyStr ++ "\n\n")

def pexelsItems : List (Nat × Json) → M Unit
  | [] => pure ()
  | (i, img) :: rest => do
    pexelsItem i img
    pexelsItems rest

def pexelsBody (api_data : Json) : M Unit := do
  let photosJ ← liftEx (api_data.dictGetD "photos" (Json.arr []))
  let photos ← liftEx photosJ.asList
  pexelsItems ((photos.take 5).enumFrom 1)

/-- One Pixabay item. -/
def pixabayItem (i : Nat) (img : Json) : M Unit := do
  let tags ← liftEx (img.dictGetD "tags" (Json.str "Untagged"))
  emit (toString i ++ ". " ++ tags.pyStr ++ "\n")
  let webformatURL ← liftEx (img.dictGet "webformatURL")
  emit ("- URL: " ++ webformatURL.pyStr ++ "\n")
  let large ← liftEx (img.dictGetD "largeImageURL" (Json.str "N/A"))
  emit ("- Large: " ++ large.pyStr ++ "\n")
  let user ← liftEx (img.dictGet "user")
  emit ("- User: " ++ user.pyStr ++ "\n")
  let w ← liftEx (img.dictGet "imageWidth")
  let h ← liftEx (img.dictGet "imageHeight")
  emit ("- Dimensions: " ++ w.pyStr ++ "x" ++ h.pyStr ++ "\n\n")

def pixabayItems : List (Nat × Json) → M Unit
  | [] => pure ()
  | (i, img) :: rest => do
    pixabayItem i img
    pixabayItems rest

def pixabayBody (api_data : Json) : M Unit := do
  let hitsJ ← liftEx (api_data.dictGetD "hits" (Json.arr []))
  let hits ← liftEx hitsJ.asList
  pixabayItems ((hits.take 5).enumFrom 1)

/-- The per-source extraction code inside the `try` of `format_api_results`
(source ids without a branch extract nothing). -/
def bodyFor (source_id : String) (api_data : Json) : M Unit :=
  if source_id == "unsplash" then unsplashBody api_data
  else if source_id == "pexels" then pexelsBody api_data
  else if source_id == "pixabay" then pixabayBody api_data
  else pure ()

/-- The two header lines `result_text` starts with. -/
def apiHeader (source : Source) : String :=
  "\n" ++ source.name ++ " (API Results)\n" ++ "Description: " ++ source.description ++ "\n\n"

/-- Running the extraction body over an initial `result_text`. -/
def formatBodyRun (source_id : String) (api_data : Json) (init : String) :
    Except PyErr Unit × String :=
  ((bodyFor source_id api_data).run).run init

/-- The inline note appended by `except KeyError as e`
(`str(KeyError(k))` renders as the quoted key). -/
def errNote (k : String) : String := "Error parsing API response: \x27" ++ k ++ "\x27\n"

/-- `format_api_results(source_id, api_data, query)`.  `none` models an
uncaught exception (unknown source id, or a `TypeError`/`AttributeError`
during extraction); a caught `KeyError` yields the text accumulated so far
plus the inline error note. -/
def format_api_results (source_id : String) (api_data : Json) (query : String) :
    Option String :=
  match lookupSource source_id with
  | none => none
  | some source =>
    match formatBodyRun source_id api_data (apiHeader source) with
    | (Except.ok _, t) => some t
    | (Except.error (PyErr.keyError k), t) => some (t ++ errNote k)
    | (Except.error PyErr.fatal, _) => none

/-- One response block (a `TextContent`; the `type` field is always
`"text"`). -/
structure TextContent where
  text : String
deriving DecidableEq

/-- The web search URL built in the fallback branch. -/
def searchUrl (source : Source) (query : String) : String :=
  source.base_url ++ pyQuote query

/-- The web-link fallback block of `search_stock_images`. -/
def webLinkBlock (source : Source) (query : String) : TextContent :=
  ⟨"\n## " ++ source.name ++ " (Web Search)\n"
   ++ "**Description:** " ++ source.description ++ "\n"
   ++ "**Search URL:** " ++ searchUrl source query ++ "\n"
   ++ "**Direct Link:** [Search \x27" ++ query ++ "\x27 on " ++ source.name
   ++ "](" ++ searchUrl source query ++ ")\n"⟩

/-- What one iteration of the search loop produces for one requested source
id. -/
inductive SourceOutcome where
  | skipped : SourceOutcome
  | fatalError : SourceOutcome
  | apiBlock : TextContent → SourceOutcome
  | webBlock : TextContent → SourceOutcome
deriving DecidableEq

/-- The body of the `for source_id in sources` loop of
`search_stock_images`. -/
def processSource (env : String → Option String) (http : HttpRequest → Option Json)
    (query : String) (limit : Int) (source_id : String) :
    SourceOutcome × List HttpRequest :=
  match lookupSource source_id with
  | none => (.skipped, [])
  | some source =>
    match make_api_request env http source_id query limit with
    | (some api_data, reqs) =>
      if api_data.truthy then
        match format_api_results source_id api_data query with
        | some txt => (.apiBlock ⟨txt⟩, reqs)
        | none => (.fatalError, reqs)
      else (.webBlock (webLinkBlock source query), reqs)
    | (none, reqs) => (.webBlock (webLinkBlock source query), reqs)

/-- The search loop: per-source blocks in request order, the `api_sources`
and `web_sources` accumulators, and all requests issued.  `none` models an
exception escaping the loop. -/
def searchLoop (env : String → Option String) (http : HttpRequest → Option Json)
    (query : String) (limit : Int) :
    List String → Option (List TextContent × List String × List String × List HttpRequest)
  | [] => some ([], [], [], [])
  | sid :: rest =>
    match processSource env http query limit sid with
    | (.skipped, rs) =>
      (searchLoop env http query limit rest).map (fun (b, a, w, q) => (b, a, w, rs ++ q))
    | (.fatalError, _) => none
    | (.apiBlock t, rs) =>
      (searchLoop env http query limit rest).map (fun (b, a, w, q) => (t :: b, sid :: a, w, rs ++ q))
    | (.webBlock t, rs) =>
      (searchLoop env http query limit rest).map (fun (b, a, w, q) => (t :: b, a, sid :: w, rs ++ q))

/-- The `arguments` dict of the search tool; `none` fields model absent
keys. -/
structure SearchArgs where
  query : Option String
  sources : Option (List String)
  limit : Option Int

/-- The leading header block. -/
def headerText (query : String) : String :=
  "# Stock Image Search Results for \x27" ++ query ++ "\x27\n"

/-- The trailing summary block. -/
def summaryText (query : String) (sources api_sources web_sources : List String) : String :=
  let apiJoined := String.intercalate ", " api_sources
  let webJoined := String.intercalate ", " web_sources
  "\n---\n**Search Summary**\n"
  ++ "**Query:** " ++ query ++ "\n"
  ++ ("**Total Sources:** " ++ toString sources.length ++ "\n")
  ++ (if api_sources.isEmpty then "" else
      "**API Integration:** " ++ apiJoined ++ " (" ++ toString api_sources.length ++ " sources)\n")
  ++ (if web_sources.isEmpty then "" else
      "**Web Search Links:** " ++ webJoined ++ " (" ++ toString web_sources.length ++ " sources)\n")
  ++ "\n**Note:** For API sources, configure environment variables (UNSPLASH_ACCESS_KEY, PEXELS_API_KEY, PIXABAY_API_KEY) to get actual image data. "
  ++ "Always check license requirements before using images."

/-- `search_stock_images(arguments)`.  `none` models an uncaught exception. -/
def search_stock_images (env : String → Option String) (http : HttpRequest → Option Json)
    (arguments : SearchArgs) : Option (List TextContent × List HttpRequest) :=
  let query := arguments.query.getD ""
  let sources := arguments.sources.getD (STOCK_IMAGE_SOURCES.map Prod.fst)
  let limit := arguments.limit.getD 5
  if query == "" then some ([⟨"Error: Search query is required"⟩], [])
  else
    match searchLoop env http query limit sources with
    | none => none
    | some (blocks, api_sources, web_sources, reqs) =>
      some (⟨headerText query⟩ :: blocks ++ [⟨summaryText query sources api_sources web_sources⟩],
            reqs)

/-- One registry entry of the `get_stock_image_sources` listing. -/
def sourceEntry (p : String × Source) : String :=
  "## " ++ p.2.name ++ "\n" ++ "ID: \x60" ++ p.1 ++ "\x60\n"
  ++ "Description: " ++ p.2.description ++ "\n"
  ++ "Base URL: " ++ p.2.base_url ++ "\n" ++ "\n"

/-- `get_stock_image_sources()`. -/
def get_stock_image_sources : List TextContent :=
  [⟨"Available Free Stock Image Sources\n"
    ++ String.join (STOCK_IMAGE_SOURCES.map sourceEntry)
    ++ "---\n" ++ "Total Sources: " ++ toString STOCK_IMAGE_SOURCES.length ++ "\n"
    ++ "Usage: Use the \x60search_stock_images\x60 tool to search across these sources.\n"⟩]

/-- Credential masking in `check_api_status`. -/
def maskKey (api_key : String) : String :=
  if api_key.length > 8 then api_key.take 8 ++ "..." else "***"

/-- One source section of the `check_api_status` report. -/
def statusEntry (env : String → Option String) (source_info : Source) : String :=
  let head := "## " ++ source_info.name ++ "\n"
  if !(strOptTruthy source_info.api_url) then
    head ++ "❌ **API Status:** No public API available\n"
    ++ "🔗 **Fallback:** Web search links only\n\n"
  else
    let part := head ++ "✅ **API Endpoint:** " ++ source_info.api_url.getD "" ++ "\n"
    let keyPart :=
      if source_info.requires_api_key == "true" then
        match source_info.api_key_env with
        | none => "❌ **API Key:** Environment variable not configured\n"
        | some envName =>
          if envName == "" then "❌ **API Key:** Environment variable not configured\n"
          else
            match env envName with
            | some api_key =>
              if api_key == "" then
                "❌ **API Key (" ++ envName ++ "):** Not found in environment\n"
              else
                "✅ **API Key (" ++ envName ++ "):** Configured (" ++ maskKey api_key ++ ")\n"
            | none => "❌ **API Key (" ++ envName ++ "):** Not found in environment\n"
      else "✅ **API Key:** Not required\n"
    part ++ keyPart ++ "\n"

/-- The configuration-instruction tail of the `check_api_status` report. -/
def statusTail : String :=
  "---\n\n" ++ "## Configuration Instructions\n\n"
  ++ "To enable API integration, set these environment variables:\n\n"
  ++ String.join ((STOCK_IMAGE_SOURCES.filter (fun p => p.2.requires_api_key == "true")).map
      (fun p =>
        match p.2.api_key_env with
        | some env_var =>
          if env_var == "" then ""
          else "- **" ++ p.2.name ++ ":** \x60export " ++ env_var ++ "=your_api_key_here\x60\n"
        | none => ""))
  ++ "\n**Note:** API keys provide richer data including image URLs, metadata, and direct download links.\n"
  ++ "Without API keys, the service falls back to providing web search links.\n"

/-- `check_api_status()`. -/
def check_api_status (env : String → Option String) : List TextContent :=
  [⟨"# API Configuration Status\n\n"
    ++ String.join (STOCK_IMAGE_SOURCES.map (fun p => statusEntry env p.2))
    ++ statusTail⟩]

/-- Outcome of one dispatched tool call.  `valueError` models the
`raise ValueError(...)` in the dispatcher's final branch; `pythonError`
models any other exception escaping a handler. -/
inductive ToolResult where
  | ok : List TextContent → List HttpRequest → ToolResult
  | pythonError : ToolResult
  | valueError : String → ToolResult
deriving DecidableEq

/-- `handle_call_tool(name, arguments)`. -/
def handle_call_tool (env : String → Option String) (http : HttpRequest → Option Json)
    (name : String) (arguments : Option SearchArgs) : ToolResult :=
  if name == "search_stock_images" then
    match search_stock_images env http (arguments.getD ⟨none, none, none⟩) with
    | some (blocks, reqs) => .ok blocks reqs
    | none => .pythonError
  else if name == "get_stock_image_sources" then .ok get_stock_image_sources []
  else if name == "check_api_status" then .ok (check_api_status env) []
  else .valueError ("Unknown tool: " ++ name)

/-- An environment with no variables set and an HTTP layer where every
request fails: concrete collaborators for witnesses. -/
def noEnv : String → Option String := fun _ => none

def noHttp : HttpRequest → Option Json := fun _ => none

/-- `strStartsWith h n`: `n` is a leading segment of `h`. -/
def strStartsWith : List Char → List Char → Bool
  | _, [] => true
  | [], _ :: _ => false
  | c :: cs, d :: ds => c == d && strStartsWith cs ds

/-- `hasSub h n`: `n` occurs contiguously inside `h`. -/
def hasSub : List Char → List Char → Bool
  | [], n => n.isEmpty
  | c :: t, n => strStartsWith (c :: t) n || hasSub t n

/-- `needle` occurs contiguously inside `hay`. -/
def containsSubstr (hay needle : String) : Bool := hasSub hay.data needle.data

/-- The block a loop iteration contributes, when any (statement helper). -/
def outcomeBlock : SourceOutcome → Option TextContent
  | .apiBlock t => some t
  | .webBlock t => some t
  | _ => none

def outcomeIsApi : SourceOutcome → Bool
  | .apiBlock _ => true
  | _ => false

def outcomeIsWeb : SourceOutcome → Bool
  | .webBlock _ => true
  | _ => false

/-- Per-source blocks of a search, in request order (statement helper). -/
def blocksOf (env : String → Option String) (http : HttpRequest → Option Json)
    (query : String) (limit : Int) (srcs : List String) : List TextContent :=
  srcs.filterMap (fun sid => outcomeBlock (processSource env http query limit sid).1)

def apiIdsOf (env : String → Option String) (http : HttpRequest → Option Json)
    (query : String) (limit : Int) (srcs : List String) : List String :=
  srcs.filter (fun sid => outcomeIsApi (processSource env http query limit sid).1)

def webIdsOf (env : String → Option String) (http : HttpRequest → Option Json)
    (query : String) (limit : Int) (srcs : List String) : List String :=
  srcs.filter (fun sid => outcomeIsWeb (processSource env http query limit sid).1)

def reqsOf (env : String → Option String) (http : HttpRequest → Option Json)
    (query : String) (limit : Int) (srcs : List String) : List HttpRequest :=
  srcs.flatMap (fun sid => (processSource env http query limit sid).2)

/-- The per-source page-size cap of the request-building table (30 for
unsplash, 80 for pexels, 200 for pixabay, 20 in the generic default). -/
def sourceCap (sid : String) : Int :=
  if sid == "unsplash" then 30
  else if sid == "pexels" then 80
  else if sid == "pixabay" then 200
  else 20

/-- A source used only to state the web-link example of the spec. -/
def exampleSource : Source :=
  ⟨"Example", "https://example.com/search/", none, "example source", "false", none⟩

/-- First-match lookup among request parameters (statement helper). -/
def paramLookup : List (String × String) → String → Option String
  | [], _ => none
  | (k, v) :: rest, key => if k == key then some v else paramLookup rest key

/-- A fully-populated Unsplash item for concrete payloads. -/
def uItem (t u d a : String) (w h : Int) : Json :=
  Json.obj [("description", Json.str t), ("urls", Json.obj [("regular", Json.str u)]),
            ("links", Json.obj [("download", Json.str d)]),
            ("user", Json.obj [("name", Json.str a)]),
            ("width", Json.num w), ("height", Json.num h)]

/-- A fully-populated Pexels item. -/
def pItem (i : Int) (lg md ph : String) (w h : Int) : Json :=
  Json.obj [("id", Json.num i), ("src", Json.obj [("large", Json.str lg), ("medium", Json.str md)]),
            ("photographer", Json.str ph), ("width", Json.num w), ("height", Json.num h)]

/-- A fully-populated Pixabay item. -/
def xItem (t wf lg us : String) (w h : Int) : Json :=
  Json.obj [("tags", Json.str t), ("webformatURL", Json.str wf),
            ("largeImageURL", Json.str lg), ("user", Json.str us),
            ("imageWidth", Json.num w), ("imageHeight", Json.num h)]

/-- Seven well-formed Unsplash results. -/
def uPayload7 : Json :=
  Json.obj [("results", Json.arr
    [uItem "title1" "u1" "d1" "a1" 1 1, uItem "title2" "u2" "d2" "a2" 2 2,
     uItem "title3" "u3" "d3" "a3" 3 3, uItem "title4" "u4" "d4" "a4" 4 4,
     uItem "title5" "u5" "d5" "a5" 5 5, uItem "title6" "u6" "d6" "a6" 6 6,
     uItem "title7" "u7" "d7" "a7" 7 7])]

/-- Seven well-formed Pexels photos. -/
def pPayload7 : Json :=
  Json.obj [("photos", Json.arr
    [pItem 11 "l1" "m1" "p1" 1 1, pItem 22 "l2" "m2" "p2" 2 2, pItem 33 "l3" "m3" "p3" 3 3,
     pItem 44 "l4" "m4" "p4" 4 4, pItem 55 "l5" "m5" "p5" 5 5, pItem 66 "l6" "m6" "p6" 6 6,
     pItem 77 "l7" "m7" "p7" 7 7])]

/-- Seven well-formed Pixabay hits. -/
def xPayload7 : Json :=
  Json.obj [("hits", Json.arr
    [xItem "tag1" "w1" "g1" "s1" 1 1, xItem "tag2" "w2" "g2" "s2" 2 2,
     xItem "tag3" "w3" "g3" "s3" 3 3, xItem "tag4" "w4" "g4" "s4" 4 4,
     xItem "tag5" "w5" "g5" "s5" 5 5, xItem "tag6" "w6" "g6" "s6" 6 6,
     xItem "tag7" "w7" "g7" "s7" 7 7])]

/-- An Unsplash payload whose single item lacks the expected `urls` field. -/
def uBadPayload : Json :=
  Json.obj [("results", Json.arr [Json.obj [("width", Json.num 3)]])]

/-- An environment holding only the Unsplash credential. -/
def envU : String → Option String :=
  fun v => if v == "UNSPLASH_ACCESS_KEY" then some "unsplash-key" else none

/-- An HTTP layer answering the Unsplash endpoint with the malformed payload. -/
def httpU : HttpRequest → Option Json :=
  fun r => if r.url == "https://api.unsplash.com/search/photos" then some uBadPayload else none

/-- The one request the client issues for unsplash under `envU` with query
`"cats"` and limit 50. -/
def reqC7 : HttpRequest :=
  ⟨"https://api.unsplash.com/search/photos",
   [("User-Agent", "free-stock-images-mcp/0.1.0"), ("Authorization", "Client-ID unsplash-key")],
   [("query", "cats"), ("per_page", "30")]⟩

/-- Concrete search arguments with a duplicated and an unknown source id. -/
def c10Args : SearchArgs := ⟨some "cats", some ["pexels", "pexels", "bogus"], some 5⟩

/-- The blocks the search returns for `c10Args` with no credentials. -/
def c10Blocks : List TextContent :=
  [⟨headerText "cats"⟩, webLinkBlock pexelsSource "cats", webLinkBlock pexelsSource "cats",
   ⟨summaryText "cats" ["pexels", "pexels", "bogus"] [] ["pexels", "pexels"]⟩]

/-- The one request the client issues for unsplash under `envU` with query
`"cats"` and limit 5. -/
def reqU5 : HttpRequest :=
  ⟨"https://api.unsplash.com/search/photos",
   [("User-Agent", "free-stock-images-mcp/0.1.0"), ("Authorization", "Client-ID unsplash-key")],
   [("query", "cats"), ("per_page", "5")]⟩

theorem liftEx_ok_bind {α β : Type} (a : α) (f : α → M β) :
    (liftEx (Except.ok a) >>= f) = f a := rfl

theorem liftEx_error_bind {α β : Type} (e : PyErr) (f : α → M β) :
    ((liftEx (Except.error e) : M α) >>= f) = liftEx (Except.error e) := rfl

theorem strStartsWith_append (l r : List Char) : strStartsWith (l ++ r) l = true := by
  induction l with
  | nil => cases r <;> rfl
  | cons c cs ih => simp [strStartsWith, ih]

theorem strStartsWith_of_eq_append {h n : List Char} (r : List Char) (e : h = n ++ r) :
    strStartsWith h n = true := by
  subst e; exact strStartsWith_append n r

theorem hasSub_of_sw {h n : List Char} (hs : strStartsWith h n = true) :
    hasSub h n = true := by
  cases h with
  | nil =>
    cases n with
    | nil => rfl
    | cons d ds => simp [strStartsWith] at hs
  | cons c t => simp [hasSub, hs]

theorem hasSub_append_left (a : List Char) {r n : List Char} (hr : hasSub r n = true) :
    hasSub (a ++ r) n = true := by
  induction a with
  | nil => simpa using hr
  | cons c t ih => simp [hasSub, ih]

theorem hasSub_mid (a b c : List Char) : hasSub (a ++ (b ++ c)) b = true :=
  hasSub_append_left a (hasSub_of_sw (strStartsWith_append b c))

theorem containsSubstr_intro (pre post : List Char) {hay needle : String}
    (h : hay.data = pre ++ (needle.data ++ post)) : containsSubstr hay needle = true := by
  rw [containsSubstr, h]; exact hasSub_mid _ _ _

theorem toNat_ofNat_valid {n : Nat} (h : n < 55296) : (Char.ofNat n).toNat = n := by
  rw [Char.ofNat, dif_pos (Or.inl h)]
  rfl

theorem hexDigit_ne_space (n : Nat) : hexDigit n ≠ ' ' := by
  unfold hexDigit
  split
  all_goals decide

theorem quoteByte_no_space (b : Nat) : ' ' ∉ quoteByte b := by
  unfold quoteByte
  split
  · rename_i hsafe
    intro hmem
    simp only [List.mem_singleton] at hmem
    have hb :
        (65 ≤ b ∧ b ≤ 90) ∨ (97 ≤ b ∧ b ≤ 122) ∨ (48 ≤ b ∧ b ≤ 57) ∨
        b = 95 ∨ b = 46 ∨ b = 45 ∨ b = 126 ∨ b = 47 := by
      simpa [isSafeByte, Bool.or_eq_true, Bool.and_eq_true, decide_eq_true_eq,
             beq_iff_eq, or_assoc] using hsafe
    have hlt : b < 55296 := by omega
    have hne : b ≠ 32 := by omega
    have : (' ' : Char).toNat = (Char.ofNat b).toNat := congrArg Char.toNat hmem
    rw [toNat_ofNat_valid hlt] at this
    exact hne this.symm
  · intro hmem
    simp only [List.mem_cons, List.mem_singleton, List.not_mem_nil, or_false] at hmem
    rcases hmem with h | h | h
    · exact absurd h (by decide)
    · exact hexDigit_ne_space _ h.symm
    · exact hexDigit_ne_space _ h.symm

theorem pyQuote_no_space (s : String) : ((pyQuote s).data.contains ' ') = false := by
  by_contra hc
  have hmem : ' ' ∈ (pyQuote s).data := by
    have := eq_true_of_ne_false (fun h => hc h)
    exact List.elem_iff.mp this
  have : ∃ b ∈ strBytes s, ' ' ∈ quoteByte b := List.mem_flatMap.mp hmem
  rcases this with ⟨b, _, hb⟩
  exact quoteByte_no_space b hb

theorem processSource_skipped (env : String → Option String) (http : HttpRequest → Option Json)
    (query : String) (limit : Int) {sid : String} (h : lookupSource sid = none) :
    processSource env http query limit sid = (.skipped, []) := by
  simp [processSource, h]

theorem processSource_no_credential {env : String → Option String}
    {http : HttpRequest → Option Json} {query : String} {limit : Int} {sid : String}
    {src : Source} {envVar : String}
    (hs : lookupSource sid = some src)
    (hreq : src.requires_api_key = "true")
    (hvar : src.api_key_env = some envVar)
    (henv : env envVar = none) :
    make_api_request env http sid query limit = (none, []) ∧
    processSource env http query limit sid = (.webBlock (webLinkBlock src query), []) := by
  have hmk : make_api_request env http sid query limit = (none, []) := by
    cases hurl : src.api_url with
    | none => simp [make_api_request, hs, hurl]
    | some u =>
      by_cases hu : u = ""
      · simp [make_api_request, hs, hurl, hu]
      · simp [make_api_request, hs, hurl, hu, hreq, hvar, henv]
  exact ⟨hmk, by simp [processSource, hs, hmk]⟩

/-- The search loop, decomposed source by source, provided no iteration
raises an uncaught exception. -/
theorem searchLoop_decomp (env : String → Option String) (http : HttpRequest → Option Json)
    (query : String) (limit : Int) (srcs : List String)
    (h : ∀ sid ∈ srcs, (processSource env http query limit sid).1 ≠ .fatalError) :
    searchLoop env http query limit srcs =
      some (blocksOf env http query limit srcs, apiIdsOf env http query limit srcs,
            webIdsOf env http query limit srcs, reqsOf env http query limit srcs) := by
  induction srcs with
  | nil => rfl
  | cons sid rest ih =>
    have h1 : (processSource env http query limit sid).1 ≠ .fatalError :=
      h sid (List.mem_cons_self sid rest)
    have h2 : ∀ s ∈ rest, (processSource env http query limit s).1 ≠ .fatalError :=
      fun s hs => h s (List.mem_cons_of_mem sid hs)
    cases hps : processSource env http query limit sid with
    | mk o rs =>
      cases o with
      | skipped =>
        simp [searchLoop, hps, ih h2, blocksOf, apiIdsOf, webIdsOf, reqsOf,
              outcomeBlock, outcomeIsApi, outcomeIsWeb]
      | fatalError => exact absurd (by rw [hps]) h1
      | apiBlock t =>
        simp [searchLoop, hps, ih h2, blocksOf, apiIdsOf, webIdsOf, reqsOf,
              outcomeBlock, outcomeIsApi, outcomeIsWeb]
      | webBlock t =>
        simp [searchLoop, hps, ih h2, blocksOf, apiIdsOf, webIdsOf, reqsOf,
              outcomeBlock, outcomeIsApi, outcomeIsWeb]

theorem searchLoop_all_unknown (env : String → Option String) (http : HttpRequest → Option Json)
    (q : String) (l : Int) :
    ∀ srcs : List String, (∀ sid ∈ srcs, lookupSource sid = none) →
      searchLoop env http q l srcs = some ([], [], [], []) := by
  intro srcs
  induction srcs with
  | nil => intro _; rfl
  | cons sid rest ih =>
    intro hunk
    have h1 := processSource_skipped env http q l (hunk sid (List.mem_cons_self sid rest))
    have h2 := ih (fun s hs => hunk s (List.mem_cons_of_mem sid hs))
    simp [searchLoop, h1, h2]

theorem summaryText_contains_total (q : String) (srcs a w : List String) :
    containsSubstr (summaryText q srcs a w)
      ("**Total Sources:** " ++ toString srcs.length ++ "\n") = true := by
  unfold summaryText
  apply containsSubstr_intro
    (("\n---\n**Search Summary**\n" ++ "**Query:** " ++ q ++ "\n").data)
    (((if a.isEmpty then "" else
        "**API Integration:** " ++ String.intercalate ", " a ++ " ("
        ++ toString a.length ++ " sources)\n")
      ++ (if w.isEmpty then "" else
        "**Web Search Links:** " ++ String.intercalate ", " w ++ " ("
        ++ toString w.length ++ " sources)\n")
      ++ "\n**Note:** For API sources, configure environment variables (UNSPLASH_ACCESS_KEY, PEXELS_API_KEY, PIXABAY_API_KEY) to get actual image data. "
      ++ "Always check license requirements before using images.").data)
  simp [String.data_append, List.append_assoc]

/-- C1: a search whose query argument is empty returns exactly one block, the
error block, and issues zero network requests (no source is consulted). -/
theorem search_empty_query_single_error_block
    (env : String → Option String) (http : HttpRequest → Option Json)
    (args : SearchArgs) (h : args.query.getD "" = "") :
    search_stock_images env http args = some ([⟨"Error: Search query is required"⟩], []) := by
  simp [search_stock_images, h]

theorem search_empty_query_single_error_block_instance :
    search_stock_images noEnv noHttp ⟨some "", some ["unsplash"], some 5⟩
      = some ([⟨"Error: Search query is required"⟩], []) :=
  search_empty_query_single_error_block noEnv noHttp ⟨some "", some ["unsplash"], some 5⟩ rfl

/-- C2: for a registered source that requires an API key, when the environment
variable named by its `api_key_env` is unset the client returns without any
network request, the loop iteration for that source yields the web-link
fallback block (no exception), and a search over just that source succeeds
with the fallback block and no requests. -/
theorem missing_credential_web_fallback
    (env : String → Option String) (http : HttpRequest → Option Json)
    (q : String) (l : Int) (sid : String) (src : Source) (envVar : String)
    (hs : lookupSource sid = some src)
    (hreq : src.requires_api_key = "true")
    (hvar : src.api_key_env = some envVar)
    (henv : env envVar = none)
    (hq : q ≠ "") :
    make_api_request env http sid q l = (none, []) ∧
    processSource env http q l sid = (.webBlock (webLinkBlock src q), []) ∧
    search_stock_images env http ⟨some q, some [sid], some l⟩
      = some ([⟨headerText q⟩, webLinkBlock src q, ⟨summaryText q [sid] [] [sid]⟩], []) := by
  obtain ⟨hmk, hps⟩ := processSource_no_credential hs hreq hvar henv
  refine ⟨hmk, hps, ?_⟩
  have hloop : searchLoop env http q l [sid] = some ([webLinkBlock src q], [], [sid], []) := by
    simp [searchLoop, hps]
  simp [search_stock_images, hq, hloop]

theorem missing_credential_web_fallback_instance :
    make_api_request noEnv noHttp "pexels" "nature" 2 = (none, []) ∧
    processSource noEnv noHttp "nature" 2 "pexels"
      = (.webBlock (webLinkBlock pexelsSource "nature"), []) ∧
    search_stock_images noEnv noHttp ⟨some "nature", some ["pexels"], some 2⟩
      = some ([⟨headerText "nature"⟩, webLinkBlock pexelsSource "nature",
               ⟨summaryText "nature" ["pexels"] [] ["pexels"]⟩], []) :=
  missing_credential_web_fallback noEnv noHttp "nature" 2 "pexels" pexelsSource
    "PEXELS_API_KEY" rfl rfl rfl rfl (by decide)

/-- C8: a search whose sources list holds only ids absent from the registry
produces no per-source block and no error: just the header and the summary,
with zero network requests. -/
theorem search_unknown_sources_only_header_summary
    (env : String → Option String) (http : HttpRequest → Option Json)
    (q : String) (l : Int) (srcs : List String)
    (hq : q ≠ "")
    (hunk : ∀ sid ∈ srcs, lookupSource sid = none) :
    search_stock_images env http ⟨some q, some srcs, some l⟩
      = some ([⟨headerText q⟩, ⟨summaryText q srcs [] []⟩], []) := by
  have hloop := searchLoop_all_unknown env http q l srcs hunk
  simp [search_stock_images, hq, hloop]

theorem search_unknown_sources_only_header_summary_instance :
    search_stock_images noEnv noHttp ⟨some "cats", some ["nonexistent"], some 5⟩
      = some ([⟨headerText "cats"⟩, ⟨summaryText "cats" ["nonexistent"] [] []⟩], []) :=
  search_unknown_sources_only_header_summary noEnv noHttp "cats" 5 ["nonexistent"]
    (by decide) (by decide)

/-- C9: for every registry entry, `requires_api_key` is the string `"true"`
exactly when `api_key_env` is present.  (The registry itself is a constant of
the embedding: the source program never writes to it, so immutability holds
by construction.) -/
theorem registry_requires_key_iff_env_var :
    ∀ p ∈ STOCK_IMAGE_SOURCES,
      (p.2.requires_api_key = "true" ↔ p.2.api_key_env.isSome = true) := by
  decide

theorem registry_requires_key_iff_env_var_instance :
    unsplashSource.requires_api_key = "true" ↔ unsplashSource.api_key_env.isSome = true :=
  registry_requires_key_iff_env_var ("unsplash", unsplashSource) (by decide)

/-- C6 counterexample: for the unknown operation name `"frobnicate"` the
dispatcher raises a `ValueError`; it does not return a text result. -/
theorem unknown_tool_raises_counterexample :
    handle_call_tool noEnv noHttp "frobnicate" none
      = ToolResult.valueError "Unknown tool: frobnicate" ∧
    (∀ blocks reqs, handle_call_tool noEnv noHttp "frobnicate" none
      ≠ ToolResult.ok blocks reqs) := by
  refine ⟨rfl, ?_⟩
  intro blocks reqs h
  rw [show handle_call_tool noEnv noHttp "frobnicate" none
      = ToolResult.valueError "Unknown tool: frobnicate" from rfl] at h
  exact ToolResult.noConfusion h

/-- C6 amended: for every operation name other than the three supported ones
the dispatcher raises a `ValueError` whose message names the operation
(`"Unknown tool: <name>"`); it does not itself return a text result. -/
theorem unknown_tool_value_error
    (env : String → Option String) (http : HttpRequest → Option Json)
    (name : String) (args : Option SearchArgs)
    (h1 : name ≠ "search_stock_images") (h2 : name ≠ "get_stock_image_sources")
    (h3 : name ≠ "check_api_status") :
    handle_call_tool env http name args = ToolResult.valueError ("Unknown tool: " ++ name) := by
  simp [handle_call_tool, h1, h2, h3]

theorem unknown_tool_value_error_instance :
    handle_call_tool noEnv noHttp "bogus_op" none
      = ToolResult.valueError ("Unknown tool: " ++ "bogus_op") :=
  unknown_tool_value_error noEnv noHttp "bogus_op" none (by decide) (by decide) (by decide)

/-- C3: the web-link fallback block contains the URL `base_url ++
percent-encoded query`; `"sunset"` against base `"https://example.com/search/"`
gives `"https://example.com/search/sunset"`; a space is encoded as `%20` and
the encoder never leaves a literal space in its output. -/
theorem web_link_url_is_encoded_query :
    (∀ (src : Source) (q : String),
       containsSubstr (webLinkBlock src q).text (searchUrl src q) = true) ∧
    searchUrl exampleSource "sunset" = "https://example.com/search/sunset" ∧
    pyQuote "red car" = "red%20car" ∧
    (∀ q : String, ((pyQuote q).data.contains ' ') = false) := by
  refine ⟨?_, by decide, by decide, pyQuote_no_space⟩
  intro src q
  apply containsSubstr_intro
    (("\n## " ++ src.name ++ " (Web Search)\n" ++ "**Description:** "
      ++ src.description ++ "\n" ++ "**Search URL:** ").data)
    (("\n" ++ "**Direct Link:** [Search \x27" ++ q ++ "\x27 on " ++ src.name
      ++ "](" ++ searchUrl src q ++ ")\n").data)
  simp [webLinkBlock, String.data_append, List.append_assoc]

/-- C10: for every search with a non-empty query, the trailing summary block
states a Total Sources count equal to the length of the requested sources
list exactly as given (unknown and duplicate ids included). -/
theorem summary_total_counts_requested_ids
    (env : String → Option String) (http : HttpRequest → Option Json)
    (q : String) (l : Int) (srcs : List String)
    (blocks : List TextContent) (reqs : List HttpRequest)
    (hq : q ≠ "")
    (hres : search_stock_images env http ⟨some q, some srcs, some l⟩ = some (blocks, reqs)) :
    ∃ s : TextContent, blocks.getLast? = some s ∧
      containsSubstr s.text ("**Total Sources:** " ++ toString srcs.length ++ "\n") = true := by
  have hq' : (q == "") = false := by simp [hq]
  cases hloop : searchLoop env http q l srcs with
  | none => simp [search_stock_images, hq', hloop] at hres
  | some v =>
    obtain ⟨b, a, w, r⟩ := v
    simp [search_stock_images, hq', hloop] at hres
    obtain ⟨hb, hr⟩ := hres
    refine ⟨⟨summaryText q srcs a w⟩, ?_, summaryText_contains_total q srcs a w⟩
    rw [← hb, ← List.cons_append]
    exact List.getLast?_concat _

theorem summary_total_counts_requested_ids_instance :
    search_stock_images noEnv noHttp c10Args = some (c10Blocks, []) ∧
    c10Blocks.length = 4 ∧
    (∃ s : TextContent, c10Blocks.getLast? = some s ∧
       containsSubstr s.text
         ("**Total Sources:** " ++ toString (["pexels", "pexels", "bogus"] : List String).length
          ++ "\n") = true) :=
  ⟨by decide, by decide,
   summary_total_counts_requested_ids noEnv noHttp "cats" 5 ["pexels", "pexels", "bogus"]
     c10Blocks [] (by decide) (by decide)⟩

/-- C4: the API formatter renders at most 5 items per source, numbered from
1, regardless of the requested limit (the formatter takes no limit argument
at all): for each of the three API sources the output depends only on the
first five items of the payload, and a seven-item payload renders items
1 through 5 and not item 6. -/
theorem format_renders_at_most_five_items :
    (∀ (items : List Json) (rest : List (String × Json)) (q : String),
       format_api_results "unsplash" (Json.obj (("results", Json.arr items) :: rest)) q
       = format_api_results "unsplash" (Json.obj (("results", Json.arr (items.take 5)) :: rest)) q) ∧
    (∀ (items : List Json) (rest : List (String × Json)) (q : String),
       format_api_results "pexels" (Json.obj (("photos", Json.arr items) :: rest)) q
       = format_api_results "pexels" (Json.obj (("photos", Json.arr (items.take 5)) :: rest)) q) ∧
    (∀ (items : List Json) (rest : List (String × Json)) (q : String),
       format_api_results "pixabay" (Json.obj (("hits", Json.arr items) :: rest)) q
       = format_api_results "pixabay" (Json.obj (("hits", Json.arr (items.take 5)) :: rest)) q) ∧
    containsSubstr ((format_api_results "unsplash" uPayload7 "q").getD "") "1. title1" = true ∧
    containsSubstr ((format_api_results "unsplash" uPayload7 "q").getD "") "5. title5" = true ∧
    containsSubstr ((format_api_results "unsplash" uPayload7 "q").getD "") "6. title6" = false ∧
    containsSubstr ((format_api_results "pexels" pPayload7 "q").getD "") "5. Photo #55" = true ∧
    containsSubstr ((format_api_results "pexels" pPayload7 "q").getD "") "6. Photo #66" = false ∧
    containsSubstr ((format_api_results "pixabay" xPayload7 "q").getD "") "5. tag5" = true ∧
    containsSubstr ((format_api_results "pixabay" xPayload7 "q").getD "") "6. tag6" = false := by
  refine ⟨?_, ?_, ?_, by decide, by decide, by decide, by decide, by decide, by decide, by decide⟩
  · intro items rest q
    simp [format_api_results, lookupSource, lookupPairs, STOCK_IMAGE_SOURCES, formatBodyRun,
          bodyFor, unsplashBody, Json.dictGetD, lookupField, Json.asList, liftEx_ok_bind,
          List.take_take]
  · intro items rest q
    simp [format_api_results, lookupSource, lookupPairs, STOCK_IMAGE_SOURCES, formatBodyRun,
          bodyFor, pexelsBody, Json.dictGetD, lookupField, Json.asList, liftEx_ok_bind,
          List.take_take]
  · intro items rest q
    simp [format_api_results, lookupSource, lookupPairs, STOCK_IMAGE_SOURCES, formatBodyRun,
          bodyFor, pixabayBody, Json.dictGetD, lookupField, Json.asList, liftEx_ok_bind,
          List.take_take]

theorem format_keyError_eq (q : String) {sid : String} {src : Source} {d : Json} {k t : String}
    (hs : lookupSource sid = some src)
    (hrun : formatBodyRun sid d (apiHeader src) = (Except.error (PyErr.keyError k), t)) :
    format_api_results sid d q = some (t ++ errNote k) := by
  simp [format_api_results, hs, hrun]

theorem errNote_contains_note (t k : String) :
    containsSubstr (t ++ errNote k) "Error parsing API response:" = true := by
  have hd : ("Error parsing API response: \x27" : String).data
      = ("Error parsing API response:" : String).data ++ (" \x27" : String).data := by decide
  apply containsSubstr_intro (t.data)
    ((" \x27" : String).data ++ (k.data ++ ("\x27\n" : String).data))
  simp [errNote, String.data_append, List.append_assoc, hd]

/-- C5: when extraction of a parsed payload stops with a missing field
(`KeyError`), the formatter still returns the block for that source with an
inline error note; the loop iteration for that source is a normal API block
(nothing is aborted); and whenever no iteration aborts, the whole search
response decomposes per source, each block depending only on that source's
own fetch, so one source's malformed payload leaves every other requested
source's block unchanged. -/
theorem malformed_payload_inline_note_isolated :
    (∀ (sid : String) (src : Source) (d : Json) (q k t : String),
       lookupSource sid = some src →
       formatBodyRun sid d (apiHeader src) = (Except.error (PyErr.keyError k), t) →
       format_api_results sid d q = some (t ++ errNote k) ∧
       containsSubstr (t ++ errNote k) "Error parsing API response:" = true) ∧
    (∀ (env : String → Option String) (http : HttpRequest → Option Json)
       (q : String) (l : Int) (sid : String) (src : Source) (d : Json)
       (rs : List HttpRequest) (k t : String),
       lookupSource sid = some src →
       make_api_request env http sid q l = (some d, rs) →
       d.truthy = true →
       formatBodyRun sid d (apiHeader src) = (Except.error (PyErr.keyError k), t) →
       processSource env http q l sid = (.apiBlock ⟨t ++ errNote k⟩, rs)) ∧
    (∀ (env : String → Option String) (http : HttpRequest → Option Json)
       (q : String) (l : Int) (srcs : List String),
       q ≠ "" →
       (∀ sid ∈ srcs, (processSource env http q l sid).1 ≠ SourceOutcome.fatalError) →
       search_stock_images env http ⟨some q, some srcs, some l⟩
         = some (⟨headerText q⟩ :: blocksOf env http q l srcs
                 ++ [⟨summaryText q srcs (apiIdsOf env http q l srcs)
                      (webIdsOf env http q l srcs)⟩],
                 reqsOf env http q l srcs)) := by
  refine ⟨?_, ?_, ?_⟩
  · intro sid src d q k t hs hrun
    exact ⟨format_keyError_eq q hs hrun, errNote_contains_note t k⟩
  · intro env http q l sid src d rs k t hs hmk htr hrun
    simp [processSource, hs, hmk, htr, format_keyError_eq q hs hrun]
  · intro env http q l srcs hq hnf
    have hloop := searchLoop_decomp env http q l srcs hnf
    simp [search_stock_images, hq, hloop]

theorem malformed_payload_inline_note_isolated_instance :
    (format_api_results "unsplash" uBadPayload "cats"
       = some ((apiHeader unsplashSource ++ "1. Untitled\n") ++ errNote "urls") ∧
     containsSubstr ((apiHeader unsplashSource ++ "1. Untitled\n") ++ errNote "urls")
       "Error parsing API response:" = true) ∧
    processSource envU httpU "cats" 5 "unsplash"
      = (.apiBlock ⟨(apiHeader unsplashSource ++ "1. Untitled\n") ++ errNote "urls"⟩, [reqU5]) ∧
    search_stock_images envU httpU ⟨some "cats", some ["unsplash"], some 5⟩
      = some (⟨headerText "cats"⟩ :: blocksOf envU httpU "cats" 5 ["unsplash"]
              ++ [⟨summaryText "cats" ["unsplash"] (apiIdsOf envU httpU "cats" 5 ["unsplash"])
                   (webIdsOf envU httpU "cats" 5 ["unsplash"])⟩],
              reqsOf envU httpU "cats" 5 ["unsplash"]) :=
  ⟨malformed_payload_inline_note_isolated.1 "unsplash" unsplashSource uBadPayload "cats" "urls"
     (apiHeader unsplashSource ++ "1. Untitled\n") rfl (by rfl),
   malformed_payload_inline_note_isolated.2.1 envU httpU "cats" 5 "unsplash" unsplashSource
     uBadPayload [reqU5] "urls" (apiHeader unsplashSource ++ "1. Untitled\n")
     rfl (by rfl) (by rfl) (by rfl),
   malformed_payload_inline_note_isolated.2.2 envU httpU "cats" 5 ["unsplash"]
     (by decide) (by decide)⟩

/-- C7: whenever the API client issues a request, the page-size parameter it
sends equals `min(limit, C)` where `C` is the per-source cap of the request
table: 30 for unsplash, 80 for pexels, 200 for pixabay (20 in the generic
default branch of the table). -/
theorem per_page_min_limit_source_cap
    (env : String → Option String) (http : HttpRequest → Option Json)
    (sid q : String) (l : Int) (j : Option Json) (reqs : List HttpRequest) (r : HttpRequest)
    (hmk : make_api_request env http sid q l = (j, reqs))
    (hr : r ∈ reqs) :
    paramLookup r.params "per_page" = some (toString (min l (sourceCap sid))) := by
  by_cases s1 : sid = "unsplash"
  · subst s1
    simp [make_api_request, lookupSource, lookupPairs, STOCK_IMAGE_SOURCES, unsplashSource] at hmk
    cases henv : env "UNSPLASH_ACCESS_KEY" with
    | none =>
      rw [henv] at hmk
      simp at hmk
      obtain ⟨_, hreqs⟩ := hmk
      subst hreqs
      exact absurd hr (List.not_mem_nil r)
    | some key =>
      rw [henv] at hmk
      by_cases hk : key = ""
      · simp [hk] at hmk
        obtain ⟨_, hreqs⟩ := hmk
        subst hreqs
        exact absurd hr (List.not_mem_nil r)
      · simp [hk, issueRequest, strOptTruthy] at hmk
        obtain ⟨_, hreqs⟩ := hmk
        subst hreqs
        rw [List.mem_singleton] at hr
        subst hr
        simp [paramLookup, sourceCap]
  by_cases s2 : sid = "pexels"
  · subst s2
    simp [make_api_request, lookupSource, lookupPairs, STOCK_IMAGE_SOURCES, pexelsSource] at hmk
    cases henv : env "PEXELS_API_KEY" with
    | none =>
      rw [henv] at hmk
      simp at hmk
      obtain ⟨_, hreqs⟩ := hmk
      subst hreqs
      exact absurd hr (List.not_mem_nil r)
    | some key =>
      rw [henv] at hmk
      by_cases hk : key = ""
      · simp [hk] at hmk
        obtain ⟨_, hreqs⟩ := hmk
        subst hreqs
        exact absurd hr (List.not_mem_nil r)
      · simp [hk, issueRequest, strOptTruthy] at hmk
        obtain ⟨_, hreqs⟩ := hmk
        subst hreqs
        rw [List.mem_singleton] at hr
        subst hr
        simp [paramLookup, sourceCap]
  by_cases s3 : sid = "pixabay"
  · subst s3
    simp [make_api_request, lookupSource, lookupPairs, STOCK_IMAGE_SOURCES, pixabaySource] at hmk
    cases henv : env "PIXABAY_API_KEY" with
    | none =>
      rw [henv] at hmk
      simp at hmk
      obtain ⟨_, hreqs⟩ := hmk
      subst hreqs
      exact absurd hr (List.not_mem_nil r)
    | some key =>
      rw [henv] at hmk
      by_cases hk : key = ""
      · simp [hk] at hmk
        obtain ⟨_, hreqs⟩ := hmk
        subst hreqs
        exact absurd hr (List.not_mem_nil r)
      · simp [hk, issueRequest, strOptTruthy] at hmk
        obtain ⟨_, hreqs⟩ := hmk
        subst hreqs
        rw [List.mem_singleton] at hr
        subst hr
        simp [paramLookup, sourceCap]
  by_cases s4 : sid = "freepik"
  · subst s4
    simp [make_api_request, lookupSource, lookupPairs, STOCK_IMAGE_SOURCES, freepikSource] at hmk
    obtain ⟨_, hreqs⟩ := hmk
    subst hreqs
    exact absurd hr (List.not_mem_nil r)
  by_cases s5 : sid = "burst"
  · subst s5
    simp [make_api_request, lookupSource, lookupPairs, STOCK_IMAGE_SOURCES, burstSource] at hmk
    obtain ⟨_, hreqs⟩ := hmk
    subst hreqs
    exact absurd hr (List.not_mem_nil r)
  by_cases s6 : sid = "stockvault"
  · subst s6
    simp [make_api_request, lookupSource, lookupPairs, STOCK_IMAGE_SOURCES, stockvaultSource] at hmk
    obtain ⟨_, hreqs⟩ := hmk
    subst hreqs
    exact absurd hr (List.not_mem_nil r)
  have e1 : ("unsplash" == sid) = false := beq_eq_false_iff_ne.mpr (fun h => s1 h.symm)
  have e2 : ("pexels" == sid) = false := beq_eq_false_iff_ne.mpr (fun h => s2 h.symm)
  have e3 : ("pixabay" == sid) = false := beq_eq_false_iff_ne.mpr (fun h => s3 h.symm)
  have e4 : ("freepik" == sid) = false := beq_eq_false_iff_ne.mpr (fun h => s4 h.symm)
  have e5 : ("burst" == sid) = false := beq_eq_false_iff_ne.mpr (fun h => s5 h.symm)
  have e6 : ("stockvault" == sid) = false := beq_eq_false_iff_ne.mpr (fun h => s6 h.symm)
  simp [make_api_request, lookupSource, lookupPairs, STOCK_IMAGE_SOURCES,
        e1, e2, e3, e4, e5, e6] at hmk
  obtain ⟨_, hreqs⟩ := hmk
  subst hreqs
  exact absurd hr (List.not_mem_nil r)

theorem per_page_min_limit_source_cap_instance :
    paramLookup reqC7.params "per_page"
      = some (toString (min (50 : Int) (sourceCap "unsplash"))) :=
  per_page_min_limit_source_cap envU noHttp "unsplash" "cats" 50 none [reqC7] reqC7
    (by rfl) (by decide)
